import Mathlib

set_option linter.unusedVariables false

/-
  Verification of the courier certificate-delivery service
  (request-handling and storage-abstraction layer).

  The definitions below are shallow embeddings of the Go source:
    - pkg/api/v1/errors.go   (status errors, JoinStatusErrors, MultiStatusError)
    - pkg/api/v1/client.go   (retrying Do, StoreCertificate, StoreCertificatePassword)
    - pkg/certs.go           (StoreCertificate / StoreCertificatePassword handlers)
    - pkg/status.go          (Available middleware)
    - pkg/secrets/client.go  (CreateSecret, AddSecretVersion, GetLatestVersion)
    - pkg/store/gcloud/store.go (remote secret-manager backend)
    - pkg/store/local/store.go  (zip-archive local backend)
    - the gzip-stream local backend revision of the same file

  Machine integers do not overflow in any of this code, so counters are Nat.
  Byte strings are List Nat. Fallible Go calls are Except / Option. External
  collaborators (HTTP transport, gRPC secret-manager API, the pkcs12 trust
  primitive, base64) are passed in as explicit oracle arguments, so every
  definition stays executable.
-/

namespace Courier

/-! ## Errors of the API client (pkg/api/v1/errors.go) -/

/-- A client-side error. `status` embeds StatusError with Code and Err;
`plain` embeds an errors.New style error; `ctxCanceled` is context.Canceled;
`idRequired` is the dedicated ErrIDRequired value. -/
inductive ClientErr where
  | status (code : Nat) (msg : String)
  | plain (msg : String)
  | ctxCanceled
  | idRequired
deriving DecidableEq

/-- The rendered text of an error, Error() in Go. StatusError renders as
"[code]: msg". -/
def ClientErr.render : ClientErr → String
  | .status code msg => "[" ++ toString code ++ "]: " ++ msg
  | .plain msg => msg
  | .ctxCanceled => "context canceled"
  | .idRequired => "missing ID in request"

/-- MultiStatusError from errors.go: the aggregated error with the surviving
deduplicated set, the attempt count and the Delay field. -/
structure MultiStatusError where
  errs : List ClientErr
  attempts : Nat
  delay : Nat
deriving DecidableEq

/-- MultiStatusError.Last: Errs[len-1] when non-empty, nil otherwise. -/
def MultiStatusError.last? (m : MultiStatusError) : Option ClientErr :=
  if m.errs.length > 0 then m.errs.get? (m.errs.length - 1) else none

/-- MultiStatusError.Error(): "after N attempts: <Last()>"; a nil error
renders as "<nil>" under fmt.Sprintf. -/
def MultiStatusError.render (m : MultiStatusError) : String :=
  "after " ++ toString m.attempts ++ " attempts: " ++
    (match m.last? with
     | some e => e.render
     | none => "<nil>")

/-- Result of JoinStatusErrors: nil, a single unwrapped error, or a
multi-status error. -/
inductive JoinResult where
  | nil
  | single (e : ClientErr)
  | multi (m : MultiStatusError)
deriving DecidableEq

/-- The seen-set deduplication loop inside JoinStatusErrors: walk the errors
in order, keep an error only if its rendered text was not seen before. -/
def dedupByMessage : List ClientErr → List String → List ClientErr
  | [], _ => []
  | e :: rest, seen =>
    if e.render ∈ seen then dedupByMessage rest seen
    else e :: dedupByMessage rest (e.render :: seen)

/-- JoinStatusErrors from errors.go: drop nil errors, deduplicate by rendered
text, return nil / the single error / a MultiStatusError. The Go function
receives the elapsed delay but never assigns the Delay field, which therefore
stays at its zero value. -/
def joinStatusErrors (attempts : Nat) (delay : Nat)
    (errs : List (Option ClientErr)) : JoinResult :=
  let kept := dedupByMessage (errs.filterMap id) []
  match kept with
  | [] => .nil
  | [e] => .single e
  | kept => .multi ⟨kept, attempts, 0⟩

/-- Specification-side deduplication: keep the first occurrence of each
distinct rendered message, in order of first appearance. -/
def firstOccurrences : List ClientErr → List ClientErr
  | [] => []
  | e :: rest =>
      e :: firstOccurrences (rest.filter (fun x => x.render ≠ e.render))
termination_by l => l.length
decreasing_by
  simp only [List.length_cons]
  exact Nat.lt_succ_of_le (List.length_filter_le _ _)

theorem dedupByMessage_eq_firstOccurrences_aux (l : List ClientErr) :
    ∀ seen, dedupByMessage l seen
      = firstOccurrences (l.filter (fun x => x.render ∉ seen)) := by
  induction l with
  | nil => intro seen; simp [dedupByMessage, firstOccurrences]
  | cons e rest ih =>
    intro seen
    by_cases h : e.render ∈ seen
    · rw [show dedupByMessage (e :: rest) seen = dedupByMessage rest seen from by
        simp only [dedupByMessage]; rw [if_pos h]]
      rw [List.filter_cons, if_neg (by simpa using h)]
      exact ih seen
    · rw [show dedupByMessage (e :: rest) seen
          = e :: dedupByMessage rest (e.render :: seen) from by
        simp only [dedupByMessage]; rw [if_neg h]]
      rw [List.filter_cons, if_pos (by simpa using h)]
      rw [firstOccurrences]
      congr 1
      rw [ih (e.render :: seen)]
      congr 1
      rw [List.filter_filter]
      apply List.filter_congr
      intro x _
      by_cases hxe : x.render = e.render <;> by_cases hxs : x.render ∈ seen <;>
        simp [List.mem_cons, hxe, hxs]

/-- The seen-set loop of JoinStatusErrors keeps exactly the first occurrence
of each distinct rendered message, in order of first appearance. -/
theorem dedupByMessage_eq_firstOccurrences (l : List ClientErr) :
    dedupByMessage l [] = firstOccurrences l := by
  rw [dedupByMessage_eq_firstOccurrences_aux l []]
  congr 1
  simp

theorem get?_length_sub_one {α : Type} (l : List α) (h : l ≠ []) :
    l.get? (l.length - 1) = some (l.getLast h) := by
  have hlt : l.length - 1 < l.length :=
    Nat.sub_lt (List.length_pos.mpr h) Nat.one_pos
  rw [List.get?_eq_get hlt]
  congr 1
  exact (List.getLast_eq_get l h).symm

/-- Claim C3 (amended): JoinStatusErrors keeps, in order of first appearance,
only the first occurrence of each distinct rendered message; zero survivors
give nil, exactly one survivor is returned directly and unwrapped, and two or
more survivors give a MultiStatusError that records the attempt count and
exposes the surviving set, with display string
"after N attempts: <last surviving error>"; the elapsed-time argument is
dropped, so the Delay field stays at zero and the total elapsed time is not
reported. -/
theorem joinStatusErrors_spec (attempts delay : Nat)
    (errs : List (Option ClientErr)) :
    (firstOccurrences (errs.filterMap id) = [] →
      joinStatusErrors attempts delay errs = .nil)
    ∧ (∀ e, firstOccurrences (errs.filterMap id) = [e] →
      joinStatusErrors attempts delay errs = .single e)
    ∧ (∀ e1 e2 rest,
      firstOccurrences (errs.filterMap id) = e1 :: e2 :: rest →
      joinStatusErrors attempts delay errs
        = .multi ⟨e1 :: e2 :: rest, attempts, 0⟩
      ∧ (MultiStatusError.mk (e1 :: e2 :: rest) attempts 0).render
        = "after " ++ toString attempts ++ " attempts: "
            ++ ((e1 :: e2 :: rest).getLast (by simp)).render) := by
  have hd : dedupByMessage (errs.filterMap id) []
      = firstOccurrences (errs.filterMap id) :=
    dedupByMessage_eq_firstOccurrences _
  refine ⟨?_, ?_, ?_⟩
  · intro h
    rw [joinStatusErrors]
    simp only [hd, h]
  · intro e h
    rw [joinStatusErrors]
    simp only [hd, h]
  · intro e1 e2 rest h
    constructor
    · rw [joinStatusErrors]
      simp only [hd, h]
    · rw [MultiStatusError.render, MultiStatusError.last?]
      rw [if_pos (by simp)]
      rw [get?_length_sub_one (e1 :: e2 :: rest) (by simp)]

/-- Counterexample for claim C3 as stated: three attempts erred with
"oopsie", "boom", "oopsie" and 5 units of time elapsed; the returned
multi-error has a zero Delay field (the elapsed time is not reported) and
its display names "boom", the last distinct message kept, not the most
recent error "oopsie". -/
theorem joinStatusErrors_counterexample :
    joinStatusErrors 3 5
        [some (.plain "oopsie"), some (.plain "boom"), some (.plain "oopsie")]
      = .multi ⟨[.plain "oopsie", .plain "boom"], 3, 0⟩
    ∧ (MultiStatusError.mk [.plain "oopsie", .plain "boom"] 3 0).render
      = "after 3 attempts: boom"
    ∧ (0 : Nat) ≠ 5
    ∧ "after 3 attempts: boom" ≠ "after 3 attempts: oopsie" := by
  refine ⟨by decide, by decide, by decide, by decide⟩

/-- Witness for claim C3 (amended): instantiated on one error list for each
of the three cases. -/
theorem joinStatusErrors_spec_witness :
    joinStatusErrors 2 9 [none, none] = .nil
    ∧ joinStatusErrors 2 9 [some (.plain "a"), some (.plain "a")]
      = .single (.plain "a")
    ∧ joinStatusErrors 2 9 [some (.plain "a"), some (.plain "b")]
      = .multi ⟨[.plain "a", .plain "b"], 2, 0⟩ := by
  refine ⟨?_, ?_, ?_⟩
  · exact (joinStatusErrors_spec 2 9 [none, none]).1
      (by rw [← dedupByMessage_eq_firstOccurrences]; decide)
  · exact (joinStatusErrors_spec 2 9
      [some (.plain "a"), some (.plain "a")]).2.1 (.plain "a")
      (by rw [← dedupByMessage_eq_firstOccurrences]; decide)
  · exact ((joinStatusErrors_spec 2 9
      [some (.plain "a"), some (.plain "b")]).2.2 (.plain "a") (.plain "b") []
      (by rw [← dedupByMessage_eq_firstOccurrences]; decide)).1

/-! ## The retrying Do of the client (pkg/api/v1/client.go) -/

/-- DefaultRetries from client.go. -/
def defaultRetries : Nat := 3

/-- Outcome of the retry loop of Do, before error aggregation: success after
some number of attempts, or failure with the accumulated attempt errors. -/
inductive DoOutcome where
  | success (attempts : Nat)
  | failure (attempts : Nat) (errs : List ClientErr)
deriving DecidableEq

/-- The loop body of Do. `attempt k` is the outcome of the k-th transport
attempt (none = success), `next k` is the k-th NextBackOff result (none =
backoff.Stop), `canceled k` says whether the context is canceled during the
wait after the k-th failed attempt. `fuel` is the number of remaining loop
entries: the Go loop runs while attempts <= retries, so it is entered at
most retries + 1 times. -/
def doRetryAux (attempt : Nat → Option ClientErr) (next : Nat → Option Nat)
    (canceled : Nat → Bool) :
    Nat → Nat → List ClientErr → DoOutcome
  | 0, attempts, errs => .failure attempts errs
  | fuel + 1, attempts, errs =>
    match attempt (attempts + 1) with
    | none => .success (attempts + 1)
    | some e =>
      match next (attempts + 1) with
      | none => .failure (attempts + 1) (errs ++ [e])
      | some _ =>
        if canceled (attempts + 1) then
          .failure (attempts + 1) (errs ++ [e] ++ [.ctxCanceled])
        else
          doRetryAux attempt next canceled fuel (attempts + 1) (errs ++ [e])

/-- The retry loop of Do with the configured number of retries. -/
def doRetry (retries : Nat) (attempt : Nat → Option ClientErr)
    (next : Nat → Option Nat) (canceled : Nat → Bool) : DoOutcome :=
  doRetryAux attempt next canceled (retries + 1) 0 []

/-- Do from client.go: run the retry loop, then aggregate the collected
errors with JoinStatusErrors; `elapsed` stands for time.Since(start). -/
def clientDo (retries : Nat) (elapsed : Nat)
    (attempt : Nat → Option ClientErr) (next : Nat → Option Nat)
    (canceled : Nat → Bool) : Except JoinResult Nat :=
  match doRetry retries attempt next canceled with
  | .success n => .ok n
  | .failure n errs => .error (joinStatusErrors n elapsed (errs.map some))

theorem doRetryAux_const_error (e : ClientErr) (next : Nat → Option Nat)
    (canceled : Nat → Bool) (hnext : ∀ k, next k ≠ none)
    (hcancel : ∀ k, canceled k = false) :
    ∀ fuel attempts errs,
      doRetryAux (fun _ => some e) next canceled fuel attempts errs
        = .failure (attempts + fuel) (errs ++ List.replicate fuel e) := by
  intro fuel
  induction fuel with
  | zero => intro a errs; simp [doRetryAux]
  | succ f ih =>
    intro a errs
    obtain ⟨d, hd⟩ : ∃ d, next (a + 1) = some d := by
      cases hx : next (a + 1) with
      | none => exact absurd hx (hnext (a + 1))
      | some d => exact ⟨d, rfl⟩
    simp only [doRetryAux, hd, hcancel (a + 1), Bool.false_eq_true, if_false]
    rw [ih (a + 1) (errs ++ [e])]
    congr 1
    · omega
    · rw [List.append_assoc]
      congr 1

theorem filterMap_id_map_some {α : Type} (l : List α) :
    (l.map some).filterMap id = l := by
  induction l with
  | nil => rfl
  | cons a rest ih => simp [ih]

theorem dedupByMessage_replicate_seen (e : ClientErr) :
    ∀ n seen, e.render ∈ seen →
      dedupByMessage (List.replicate n e) seen = [] := by
  intro n
  induction n with
  | zero => intro seen _; simp [List.replicate, dedupByMessage]
  | succ m ih =>
    intro seen h
    rw [List.replicate_succ]
    rw [show dedupByMessage (e :: List.replicate m e) seen
        = dedupByMessage (List.replicate m e) seen from by
      simp only [dedupByMessage]; rw [if_pos h]]
    exact ih seen h

theorem dedupByMessage_replicate (n : Nat) (e : ClientErr) :
    dedupByMessage (List.replicate (n + 1) e) [] = [e] := by
  rw [List.replicate_succ]
  rw [show dedupByMessage (e :: List.replicate n e) []
      = e :: dedupByMessage (List.replicate n e) [e.render] from by
    simp only [dedupByMessage]; rw [if_neg (List.not_mem_nil _)]]
  rw [dedupByMessage_replicate_seen e n [e.render] (List.mem_singleton.mpr rfl)]

/-- Claim C2: against a transport whose every attempt fails with the same
status error, the retrying Do with N configured retries (backoff never
signalling stop, context never canceled) performs exactly N + 1 attempts and
returns that single status error itself, deduplicated and unwrapped; the
default policy has 3 retries, hence 4 total attempts. -/
theorem client_retry_same_status_error (N : Nat) (e : ClientErr)
    (elapsed : Nat) (next : Nat → Option Nat) (canceled : Nat → Bool)
    (hnext : ∀ k, next k ≠ none) (hcancel : ∀ k, canceled k = false) :
    doRetry N (fun _ => some e) next canceled
      = .failure (N + 1) (List.replicate (N + 1) e)
    ∧ clientDo N elapsed (fun _ => some e) next canceled
      = .error (.single e)
    ∧ defaultRetries + 1 = 4 := by
  have hloop : doRetry N (fun _ => some e) next canceled
      = .failure (N + 1) (List.replicate (N + 1) e) := by
    rw [doRetry, doRetryAux_const_error e next canceled hnext hcancel]
    simp [Nat.add_comm]
  refine ⟨hloop, ?_, rfl⟩
  rw [clientDo, hloop]
  show Except.error (joinStatusErrors (N + 1) elapsed
      ((List.replicate (N + 1) e).map some)) = _
  rw [show joinStatusErrors (N + 1) elapsed
        ((List.replicate (N + 1) e).map some) = .single e from by
    rw [joinStatusErrors]
    simp only [filterMap_id_map_some, dedupByMessage_replicate]]

/-- Witness for claim C2: the concrete scenario of the repository client
test, 3 retries and a transport that always answers 425 Too Early. -/
theorem client_retry_same_status_error_witness :
    doRetry 3 (fun _ => some (.status 425 "Too Early"))
        (fun _ => some 100) (fun _ => false)
      = .failure 4 (List.replicate 4 (.status 425 "Too Early"))
    ∧ clientDo 3 7 (fun _ => some (.status 425 "Too Early"))
        (fun _ => some 100) (fun _ => false)
      = .error (.single (.status 425 "Too Early"))
    ∧ defaultRetries + 1 = 4 :=
  client_retry_same_status_error 3 (.status 425 "Too Early") 7
    (fun _ => some 100) (fun _ => false)
    (fun _ h => Option.noConfusion h) (fun _ => rfl)

/-! ## Certificate handler (pkg/certs.go) -/

/-- An error from the storage interface: the dedicated store.ErrNotFound
value, or any other backend error with its message. -/
inductive StoreErr where
  | notFound
  | backend (msg : String)
deriving DecidableEq

/-- Error() of a store error. The message of the dedicated not-found value
is modelled from the spec, which requires only a distinct error value;
pkg/store/errors.go itself is not among the sources. -/
def StoreErr.render : StoreErr → String
  | .notFound => "not found"
  | .backend msg => msg

/-- A decrypted trust.Provider, opaque to the handler. -/
structure Provider where
  content : List Nat
deriving DecidableEq

/-- Why trust.Decrypt failed: wrong password or corrupt container. The
handler must not reveal which. -/
inductive DecryptFailure where
  | wrongPassword
  | badFormat
deriving DecidableEq

/-- The StoreCertificateRequest body of the API. -/
structure StoreCertificateRequest where
  id : String
  noDecrypt : Bool
  base64Certificate : String
deriving DecidableEq

/-- The collaborators of the StoreCertificate handler: the base64 decoder,
the store, and the trust primitive, all passed as oracles. -/
structure CertEnv where
  b64decode : String → Except String (List Nat)
  getPassword : String → Except StoreErr (List Nat)
  decrypt : List Nat → List Nat → Except DecryptFailure Provider
  encode : Provider → Except String (List Nat)
  updateCertificate : String → List Nat → Option StoreErr

/-- A gin response: HTTP status and, for c.JSON error replies, the error
message of the JSON envelope; c.Status(204) sends no body. -/
structure HandlerResponse where
  status : Nat
  body : Option String
deriving DecidableEq

/-- A call the handler makes into the storage interface, in order. -/
inductive StoreCall where
  | getPassword (id : String)
  | updateCertificate (id : String) (data : List Nat)
deriving DecidableEq

/-- The StoreCertificate handler of pkg/certs.go: parse, require the
certificate field, base64-decode, optionally fetch the password and decrypt
and re-encode, then store; paired with the trace of store calls made. -/
def storeCertificateHandler (env : CertEnv) (id : String)
    (req : StoreCertificateRequest) : HandlerResponse × List StoreCall :=
  if req.base64Certificate = "" then
    (⟨400, some "missing certificate in request"⟩, [])
  else
    match env.b64decode req.base64Certificate with
    | .error msg => (⟨400, some msg⟩, [])
    | .ok data =>
      if req.noDecrypt = false then
        match env.getPassword id with
        | .error .notFound =>
          (⟨404, some "pkcs12 password not found, unable to decrypt certificate"⟩,
            [.getPassword id])
        | .error (.backend msg) => (⟨500, some msg⟩, [.getPassword id])
        | .ok password =>
          match env.decrypt data password with
          | .error _ =>
            (⟨409, some "failed to decrypt certificate with stored pkcs12 password"⟩,
              [.getPassword id])
          | .ok provider =>
            match env.encode provider with
            | .error msg => (⟨500, some msg⟩, [.getPassword id])
            | .ok encoded =>
              match env.updateCertificate id encoded with
              | some e =>
                (⟨500, some e.render⟩,
                  [.getPassword id, .updateCertificate id encoded])
              | none =>
                (⟨204, none⟩, [.getPassword id, .updateCertificate id encoded])
      else
        match env.updateCertificate id data with
        | some e => (⟨500, some e.render⟩, [.updateCertificate id data])
        | none => (⟨204, none⟩, [.updateCertificate id data])

/-- Claim C1: for a certificate upload with decryption requested, a not-found
password fetch answers 404, any other fetch error answers 500, a decryption
failure answers 409 with one fixed message independent of the failure cause,
a failing final UpdateCertificate answers 500, and full success answers 204
with an empty body. -/
theorem storeCertificate_decrypt_responses (env : CertEnv) (id : String)
    (req : StoreCertificateRequest) (data : List Nat)
    (hnd : req.noDecrypt = false) (hne : req.base64Certificate ≠ "")
    (hdec : env.b64decode req.base64Certificate = .ok data) :
    (env.getPassword id = .error .notFound →
      (storeCertificateHandler env id req).1
        = ⟨404, some "pkcs12 password not found, unable to decrypt certificate"⟩)
    ∧ (∀ msg, env.getPassword id = .error (.backend msg) →
      (storeCertificateHandler env id req).1 = ⟨500, some msg⟩)
    ∧ (∀ pw cause, env.getPassword id = .ok pw →
      env.decrypt data pw = .error cause →
      (storeCertificateHandler env id req).1
        = ⟨409, some "failed to decrypt certificate with stored pkcs12 password"⟩)
    ∧ (∀ pw prov enc e, env.getPassword id = .ok pw →
      env.decrypt data pw = .ok prov → env.encode prov = .ok enc →
      env.updateCertificate id enc = some e →
      (storeCertificateHandler env id req).1 = ⟨500, some e.render⟩)
    ∧ (∀ pw prov enc, env.getPassword id = .ok pw →
      env.decrypt data pw = .ok prov → env.encode prov = .ok enc →
      env.updateCertificate id enc = none →
      (storeCertificateHandler env id req).1 = ⟨204, none⟩) := by
  refine ⟨?_, ?_, ?_, ?_, ?_⟩
  · intro h
    simp [storeCertificateHandler, hne, hdec, hnd, h]
  · intro msg h
    simp [storeCertificateHandler, hne, hdec, hnd, h]
  · intro pw cause hpw hdc
    simp [storeCertificateHandler, hne, hdec, hnd, hpw, hdc]
  · intro pw prov enc e hpw hdc henc hup
    simp [storeCertificateHandler, hne, hdec, hnd, hpw, hdc, henc, hup]
  · intro pw prov enc hpw hdc henc hup
    simp [storeCertificateHandler, hne, hdec, hnd, hpw, hdc, henc, hup]

/-- Witness for claim C1: a concrete environment exercising the success
branch (stored password decrypts the uploaded container). -/
theorem storeCertificate_decrypt_responses_witness :
    (storeCertificateHandler
      ⟨fun _ => .ok [1, 2], fun _ => .ok [9],
        fun _ _ => .ok ⟨[7]⟩, fun p => .ok p.content, fun _ _ => none⟩
      "1234" ⟨"1234", false, "AQI="⟩).1 = ⟨204, none⟩ :=
  (storeCertificate_decrypt_responses
    ⟨fun _ => .ok [1, 2], fun _ => .ok [9],
      fun _ _ => .ok ⟨[7]⟩, fun p => .ok p.content, fun _ _ => none⟩
    "1234" ⟨"1234", false, "AQI="⟩ [1, 2] rfl (by decide) rfl).2.2.2.2
    [9] ⟨[7]⟩ [7] rfl rfl rfl rfl

/-- Claim C5: with no_decrypt set and a well-formed base64 payload, the
handler makes no GetPassword call and hands UpdateCertificate exactly the
base64-decoded bytes, whatever the rest of the environment holds. -/
theorem storeCertificate_noDecrypt_trace (env : CertEnv) (id : String)
    (req : StoreCertificateRequest) (data : List Nat)
    (hnd : req.noDecrypt = true) (hne : req.base64Certificate ≠ "")
    (hdec : env.b64decode req.base64Certificate = .ok data) :
    (storeCertificateHandler env id req).2 = [.updateCertificate id data] := by
  cases hup : env.updateCertificate id data with
  | none => simp [storeCertificateHandler, hne, hdec, hnd, hup]
  | some e => simp [storeCertificateHandler, hne, hdec, hnd, hup]

/-- Witness for claim C5: concrete upload with no_decrypt, against a store
whose GetPassword would fail loudly if it were consulted. -/
theorem storeCertificate_noDecrypt_trace_witness :
    (storeCertificateHandler
      ⟨fun _ => .ok [1, 2], fun _ => .error (.backend "must not be called"),
        fun _ _ => .error .badFormat, fun p => .ok p.content, fun _ _ => none⟩
      "1234" ⟨"1234", true, "AQI="⟩).2 = [.updateCertificate "1234" [1, 2]] :=
  storeCertificate_noDecrypt_trace
    ⟨fun _ => .ok [1, 2], fun _ => .error (.backend "must not be called"),
      fun _ _ => .error .badFormat, fun p => .ok p.content, fun _ _ => none⟩
    "1234" ⟨"1234", true, "AQI="⟩ [1, 2] rfl (by decide) rfl

/-! ## Availability middleware (pkg/status.go) -/

/-- The StatusReply body of the API. -/
structure StatusReply where
  status : String
  uptime : String
  version : String
deriving DecidableEq

/-- The serverStatusStopping constant of pkg/status.go. -/
def serverStatusStopping : String := "stopping"

/-- The serverStatusOK constant of pkg/status.go. -/
def serverStatusOK : String := "ok"

/-- The server state the middleware can observe: the healthy flag guarded by
the RWMutex, the startup maintenance flag of the configuration, and the
uptime and version strings rendered for replies. -/
structure ServerFlags where
  healthy : Bool
  maintenance : Bool
  uptime : String
  version : String
deriving DecidableEq

/-- What the Available middleware does with one request: abort with a
service-unavailable reply, or pass the request to the downstream handler. -/
inductive MiddlewareResult where
  | shortCircuit (code : Nat) (body : StatusReply)
  | passedThrough
deriving DecidableEq

/-- The Available middleware of pkg/status.go: when the healthy flag is
down, answer 503 with a StatusReply and abort; otherwise c.Next(). -/
def availableMiddleware (s : ServerFlags) : MiddlewareResult :=
  if s.healthy then .passedThrough
  else .shortCircuit 503 ⟨serverStatusStopping, s.uptime, s.version⟩

/-- Counterexample for claim C4 as stated: with the maintenance flag
configured at startup and the service unavailable, the middleware still
labels the reply "stopping" — the code has no "maintenance" label. -/
theorem availableMiddleware_counterexample :
    availableMiddleware ⟨false, true, "5s", "v0.3.0"⟩
      = .shortCircuit 503 ⟨"stopping", "5s", "v0.3.0"⟩
    ∧ "stopping" ≠ "maintenance" := by
  exact ⟨rfl, by decide⟩

/-- Claim C4 (amended): while unavailable the middleware answers 503 with a
status/uptime/version body whose label is always the constant "stopping",
regardless of the maintenance flag, and does not invoke the downstream
handler; while available it passes the request through. -/
theorem availableMiddleware_gate (s : ServerFlags) :
    (s.healthy = false →
      availableMiddleware s
        = .shortCircuit 503 ⟨serverStatusStopping, s.uptime, s.version⟩)
    ∧ (s.healthy = true → availableMiddleware s = .passedThrough) := by
  constructor
  · intro h; simp [availableMiddleware, h]
  · intro h; simp [availableMiddleware, h]

/-- Witness for claim C4 (amended): both sides of the gate at concrete
states. -/
theorem availableMiddleware_gate_witness :
    availableMiddleware ⟨false, false, "2s", "v0.3.0"⟩
      = .shortCircuit 503 ⟨serverStatusStopping, "2s", "v0.3.0"⟩
    ∧ availableMiddleware ⟨true, false, "2s", "v0.3.0"⟩ = .passedThrough :=
  ⟨(availableMiddleware_gate ⟨false, false, "2s", "v0.3.0"⟩).1 rfl,
    (availableMiddleware_gate ⟨true, false, "2s", "v0.3.0"⟩).2 rfl⟩

/-! ## Secret-manager client (pkg/secrets/client.go) and
remote backend (pkg/store/gcloud/store.go) -/

/-- A gRPC status code of the secret-manager API. -/
inductive GrpcCode where
  | alreadyExists
  | notFound
  | invalidArgument
  | permissionDenied
  | other (code : Nat)
deriving DecidableEq

/-- An error coming back from the underlying secret-manager API client:
context.DeadlineExceeded, a gRPC status error, or a non-status error. -/
inductive ApiErr where
  | deadlineExceeded
  | grpcStatus (code : GrpcCode) (msg : String)
  | nonStatus (msg : String)
deriving DecidableEq

/-- An error returned by pkg/secrets: one of the three dedicated values, or
an underlying API error passed through unchanged. -/
inductive SecretErr where
  | secretNotFound
  | payloadTooLarge
  | permissionsDenied
  | api (e : ApiErr)
deriving DecidableEq

/-- CreateSecret from pkg/secrets/client.go, as a function of the response
of the underlying CreateSecret API call: deadline errors and non-AlreadyExists
errors are returned, an AlreadyExists status is treated as success. -/
def createSecret (resp : Option ApiErr) : Option SecretErr :=
  match resp with
  | none => none
  | some .deadlineExceeded => some (.api .deadlineExceeded)
  | some (.grpcStatus .alreadyExists _) => none
  | some e => some (.api e)

/-- AddSecretVersion from pkg/secrets/client.go: NotFound, InvalidArgument
and PermissionDenied statuses map to the three dedicated error values,
everything else passes through. -/
def addSecretVersion (resp : Option ApiErr) : Option SecretErr :=
  match resp with
  | none => none
  | some .deadlineExceeded => some (.api .deadlineExceeded)
  | some (.grpcStatus .notFound _) => some .secretNotFound
  | some (.grpcStatus .invalidArgument _) => some .payloadTooLarge
  | some (.grpcStatus .permissionDenied _) => some .permissionsDenied
  | some e => some (.api e)

/-- GetLatestVersion from pkg/secrets/client.go: a NotFound status maps to
the dedicated not-found value, everything else passes through. -/
def getLatestVersion (resp : Except ApiErr (List Nat)) :
    Except SecretErr (List Nat) :=
  match resp with
  | .ok d => .ok d
  | .error .deadlineExceeded => .error (.api .deadlineExceeded)
  | .error (.grpcStatus .notFound _) => .error .secretNotFound
  | .error e => .error (.api e)

/-- The storage key of the remote backend, fullName in gcloud/store.go. -/
def gcloudFullName (pre id : String) : String := pre ++ "-" ++ id

/-- The PasswordPrefix constant of pkg/store. -/
def passwordKeyPre : String := "pkcs12"

/-- The CertificatePrefix constant of pkg/store. -/
def certificateKeyPre : String := "certificate"

/-- A call the remote backend makes into the secret-manager API. -/
inductive SecretsCall where
  | create (name : String)
  | addVersion (name : String) (payload : List Nat)
deriving DecidableEq

/-- UpdatePassword / UpdateCertificate of gcloud/store.go: create the secret
container (tolerating AlreadyExists), then add a version with the payload;
`createResp` and `addResp` are the responses of the two underlying API
calls. Returns the error and the trace of API calls made. -/
def gcloudUpdate (pre id : String) (payload : List Nat)
    (createResp addResp : Option ApiErr) : Option SecretErr × List SecretsCall :=
  let name := gcloudFullName pre id
  match createSecret createResp with
  | some e => (some e, [.create name])
  | none =>
    (addSecretVersion addResp, [.create name, .addVersion name payload])

/-- An error returned by the remote store backend: the dedicated
store.ErrNotFound value or a passed-through secrets error. -/
inductive GStoreErr where
  | notFound
  | secret (e : SecretErr)
deriving DecidableEq

/-- GetPassword / GetCertificate of gcloud/store.go: ask for the latest
version and map the dedicated secret-not-found value to store.ErrNotFound. -/
def gcloudGet (resp : Except ApiErr (List Nat)) :
    Except GStoreErr (List Nat) :=
  match getLatestVersion resp with
  | .ok d => .ok d
  | .error .secretNotFound => .error .notFound
  | .error e => .error (.secret e)

/-- Claim C6: the remote Update calls first ensure the secret container
exists, treating an AlreadyExists create outcome as success and then
appending a version holding the payload, so repeated updates succeed; any
create error other than already-exists and any add-version error is returned
to the caller. -/
theorem gcloudUpdate_create_then_add (pre id : String) (payload : List Nat)
    (createResp addResp : Option ApiErr) :
    (∀ m, gcloudUpdate pre id payload
        (some (.grpcStatus .alreadyExists m)) addResp
      = (addSecretVersion addResp,
          [.create (gcloudFullName pre id),
           .addVersion (gcloudFullName pre id) payload]))
    ∧ (gcloudUpdate pre id payload none addResp
      = (addSecretVersion addResp,
          [.create (gcloudFullName pre id),
           .addVersion (gcloudFullName pre id) payload]))
    ∧ (∀ e, createResp = some e → (∀ m, e ≠ .grpcStatus .alreadyExists m) →
      gcloudUpdate pre id payload createResp addResp
        = (some (.api e), [.create (gcloudFullName pre id)]))
    ∧ (∀ e, addResp = some e →
      (gcloudUpdate pre id payload none addResp).1 ≠ none) := by
  refine ⟨?_, ?_, ?_, ?_⟩
  · intro m
    simp [gcloudUpdate, createSecret]
  · simp [gcloudUpdate, createSecret]
  · intro e he hne
    subst he
    have hc : createSecret (some e) = some (.api e) := by
      cases e with
      | deadlineExceeded => rfl
      | grpcStatus code msg =>
        cases code with
        | alreadyExists => exact absurd rfl (hne msg)
        | notFound => rfl
        | invalidArgument => rfl
        | permissionDenied => rfl
        | other n => rfl
      | nonStatus msg => rfl
    simp [gcloudUpdate, hc]
  · intro e he
    subst he
    have ha : ∃ x, addSecretVersion (some e) = some x := by
      cases e with
      | deadlineExceeded => exact ⟨_, rfl⟩
      | grpcStatus code msg =>
        cases code with
        | alreadyExists => exact ⟨_, rfl⟩
        | notFound => exact ⟨_, rfl⟩
        | invalidArgument => exact ⟨_, rfl⟩
        | permissionDenied => exact ⟨_, rfl⟩
        | other n => exact ⟨_, rfl⟩
      | nonStatus msg => exact ⟨_, rfl⟩
    obtain ⟨x, hx⟩ := ha
    simp [gcloudUpdate, createSecret, hx]

/-- Witness for claim C6: a repeated UpdatePassword for id "1234" whose
create call answers AlreadyExists still appends the version, and a failing
add-version call surfaces its error. -/
theorem gcloudUpdate_create_then_add_witness :
    gcloudUpdate passwordKeyPre "1234" [104, 105]
        (some (.grpcStatus .alreadyExists "exists")) none
      = (none, [.create "pkcs12-1234", .addVersion "pkcs12-1234" [104, 105]])
    ∧ gcloudUpdate passwordKeyPre "1234" [104, 105] none
        (some (.grpcStatus .permissionDenied "denied"))
      = (some .permissionsDenied,
          [.create "pkcs12-1234", .addVersion "pkcs12-1234" [104, 105]]) := by
  constructor
  · have h := (gcloudUpdate_create_then_add passwordKeyPre "1234" [104, 105]
      (some (.grpcStatus .alreadyExists "exists")) none).1 "exists"
    rw [h]
    rfl
  · have h := (gcloudUpdate_create_then_add passwordKeyPre "1234" [104, 105]
      none (some (.grpcStatus .permissionDenied "denied"))).2.1
    rw [h]
    rfl

/-- Counterexample for claim C7 as stated: a PermissionDenied error on the
latest-version read is passed through raw, not mapped to the dedicated
permissions-denied value, so the mapping does not hold for every call. -/
theorem secretsClassification_counterexample :
    getLatestVersion (.error (.grpcStatus .permissionDenied "denied"))
      = .error (.api (.grpcStatus .permissionDenied "denied"))
    ∧ SecretErr.api (.grpcStatus .permissionDenied "denied")
      ≠ SecretErr.permissionsDenied := by
  exact ⟨rfl, by decide⟩

/-- Claim C7 (amended): AddSecretVersion maps NotFound, InvalidArgument
(payload too large) and PermissionDenied to the three distinct dedicated
values; GetLatestVersion maps only NotFound; every other error on either
call passes through unchanged, and the store layer turns the dedicated
secret-not-found value into store.ErrNotFound. -/
theorem secretsClassification (m : String) (n : Nat) :
    addSecretVersion (some (.grpcStatus .notFound m)) = some .secretNotFound
    ∧ addSecretVersion (some (.grpcStatus .invalidArgument m))
      = some .payloadTooLarge
    ∧ addSecretVersion (some (.grpcStatus .permissionDenied m))
      = some .permissionsDenied
    ∧ addSecretVersion (some (.grpcStatus (.other n) m))
      = some (.api (.grpcStatus (.other n) m))
    ∧ addSecretVersion (some (.nonStatus m)) = some (.api (.nonStatus m))
    ∧ addSecretVersion (some .deadlineExceeded)
      = some (.api .deadlineExceeded)
    ∧ getLatestVersion (.error (.grpcStatus .notFound m))
      = .error .secretNotFound
    ∧ getLatestVersion (.error (.grpcStatus .permissionDenied m))
      = .error (.api (.grpcStatus .permissionDenied m))
    ∧ getLatestVersion (.error (.grpcStatus .invalidArgument m))
      = .error (.api (.grpcStatus .invalidArgument m))
    ∧ getLatestVersion (.error (.grpcStatus (.other n) m))
      = .error (.api (.grpcStatus (.other n) m))
    ∧ getLatestVersion (.error (.nonStatus m)) = .error (.api (.nonStatus m))
    ∧ getLatestVersion (.error .deadlineExceeded)
      = .error (.api .deadlineExceeded)
    ∧ gcloudGet (.error (.grpcStatus .notFound m)) = .error .notFound
    ∧ (SecretErr.secretNotFound ≠ .payloadTooLarge
      ∧ SecretErr.secretNotFound ≠ .permissionsDenied
      ∧ SecretErr.payloadTooLarge ≠ .permissionsDenied) := by
  refine ⟨rfl, rfl, rfl, rfl, rfl, rfl, rfl, rfl, rfl, rfl, rfl, rfl, rfl,
    by decide, by decide, by decide⟩

/-! ## Local storage backend (pkg/store/local/store.go: the zip-archive
revision and the gzip-stream revision) -/

deriving instance DecidableEq for Except

/-- An error of the local backend. `notFound` is the dedicated
store.ErrNotFound value (modelled from the spec, which requires a distinct
error value; pkg/store/errors.go itself is not among the sources);
`openNotExist` is the raw not-exist error of os.Open, passed through when no
mapping is applied; `gzipHeader` is the gzip.NewReader failure on a stream
without a gzip header. -/
inductive LocalErr where
  | notFound
  | openNotExist (path : String)
  | gzipHeader
deriving DecidableEq

/-- The files under the storage root of the zip revision: path to the entry
list of the zip archive stored there. -/
def ZipFS : Type := String → Option (List (String × List Nat))

/-- The empty storage directory of the zip revision. -/
def zipEmptyFS : ZipFS := fun _ => none

/-- os.Create + zip.NewWriter: replace the file at the path with a fresh
archive holding the given entries. -/
def zipWrite (fs : ZipFS) (path : String)
    (entries : List (String × List Nat)) : ZipFS :=
  fun q => if q = path then some entries else fs q

/-- The files under the storage root of the gzip revision: path to the raw
byte stream of the file. -/
def ByteFS : Type := String → Option (List Nat)

/-- The empty storage directory of the gzip revision. -/
def byteEmptyFS : ByteFS := fun _ => none

/-- os.WriteFile: replace the file at the path with the given bytes. -/
def byteWrite (fs : ByteFS) (path : String) (bytes : List Nat) : ByteFS :=
  fun q => if q = path then some bytes else fs q

/-- The gzip stream compressing a payload, modelled by the contract of the
compress/gzip package: a header (the two gzip magic bytes) followed by the
recoverable payload. -/
def gzipWrap (d : List Nat) : List Nat := 31 :: 139 :: d

/-- gzip.NewReader followed by io.ReadAll: recover the payload of a gzip
stream; fail on a stream that does not start with the gzip header. -/
def gzipUnwrap? : List Nat → Option (List Nat)
  | 31 :: 139 :: d => some d
  | _ => none

namespace LocalZip

/-- fullPath of the zip revision: "<root>/<prefix>-<name>.zip". -/
def fullPath (root pre name : String) : String :=
  root ++ "/" ++ pre ++ "-" ++ name ++ ".zip"

/-- load of the zip revision: a missing file and an archive with no entries
both give store.ErrNotFound; otherwise the data of the first entry. -/
def load (fs : ZipFS) (path : String) : Except LocalErr (List Nat) :=
  match fs path with
  | none => .error .notFound
  | some [] => .error .notFound
  | some ((_, d) :: _) => .ok d

/-- store of the zip revision: write a fresh single-entry archive. -/
def storeFile (fs : ZipFS) (path name : String) (data : List Nat) : ZipFS :=
  zipWrite fs path [(name, data)]

/-- GetPassword of the zip revision. -/
def getPassword (fs : ZipFS) (root id : String) : Except LocalErr (List Nat) :=
  load fs (fullPath root passwordKeyPre id)

/-- UpdatePassword of the zip revision. -/
def updatePassword (fs : ZipFS) (root id : String) (password : List Nat) :
    ZipFS :=
  storeFile fs (fullPath root passwordKeyPre id) "pkcs12.password" password

/-- GetCertificate of the zip revision. -/
def getCertificate (fs : ZipFS) (root id : String) :
    Except LocalErr (List Nat) :=
  load fs (fullPath root certificateKeyPre id)

/-- UpdateCertificate of the zip revision. -/
def updateCertificate (fs : ZipFS) (root id : String) (cert : List Nat) :
    ZipFS :=
  storeFile fs (fullPath root certificateKeyPre id) "certificate" cert

end LocalZip

namespace LocalGzip

/-- fullPath of the gzip revision: "<root>/<prefix>-<name>.gz". -/
def fullPath (root pre name : String) : String :=
  root ++ "/" ++ pre ++ "-" ++ name ++ ".gz"

/-- readFile of the gzip revision: os.Open, gzip.NewReader, io.ReadAll.
The error of os.Open on a missing file is returned unchanged — this
revision does not map it to store.ErrNotFound. -/
def readFile (fs : ByteFS) (path : String) : Except LocalErr (List Nat) :=
  match fs path with
  | none => .error (.openNotExist path)
  | some bytes =>
    match gzipUnwrap? bytes with
    | none => .error .gzipHeader
    | some d => .ok d

/-- writeFile of the gzip revision: compress in memory, then os.WriteFile. -/
def writeFile (fs : ByteFS) (path : String) (data : List Nat) : ByteFS :=
  byteWrite fs path (gzipWrap data)

/-- GetPassword of the gzip revision. -/
def getPassword (fs : ByteFS) (root id : String) :
    Except LocalErr (List Nat) :=
  readFile fs (fullPath root passwordKeyPre id)

/-- UpdatePassword of the gzip revision. -/
def updatePassword (fs : ByteFS) (root id : String) (password : List Nat) :
    ByteFS :=
  writeFile fs (fullPath root passwordKeyPre id) password

/-- GetCertificate of the gzip revision: os.ReadFile with the not-exist
error mapped to store.ErrNotFound; the bytes come back uncompressed. -/
def getCertificate (fs : ByteFS) (root id : String) :
    Except LocalErr (List Nat) :=
  match fs (fullPath root certificateKeyPre id) with
  | none => .error .notFound
  | some bytes => .ok bytes

/-- UpdateCertificate of the gzip revision: os.WriteFile of the raw bytes. -/
def updateCertificate (fs : ByteFS) (root id : String) (cert : List Nat) :
    ByteFS :=
  byteWrite fs (fullPath root certificateKeyPre id) cert

end LocalGzip

/-- Claim C8 evaluated: both revisions round-trip Update then Get and a
second Update wins; Get on an id never written gives store.ErrNotFound in
the zip revision and for gzip certificates — but gzip GetPassword returns
the raw os.Open error instead, contradicting the backend test of the
repository, which requires store.ErrNotFound there. -/
theorem localStore_roundtrip_evaluation :
    LocalZip.getPassword
        (LocalZip.updatePassword zipEmptyFS "data" "pid" [1, 2]) "data" "pid"
      = .ok [1, 2]
    ∧ LocalZip.getPassword
        (LocalZip.updatePassword
          (LocalZip.updatePassword zipEmptyFS "data" "pid" [1, 2])
          "data" "pid" [3]) "data" "pid"
      = .ok [3]
    ∧ LocalZip.getCertificate
        (LocalZip.updateCertificate zipEmptyFS "data" "cid" [5]) "data" "cid"
      = .ok [5]
    ∧ LocalZip.getPassword zipEmptyFS "data" "does-not-exist"
      = .error .notFound
    ∧ LocalZip.getCertificate zipEmptyFS "data" "does-not-exist"
      = .error .notFound
    ∧ LocalGzip.getPassword
        (LocalGzip.updatePassword byteEmptyFS "data" "pid" [1, 2])
        "data" "pid"
      = .ok [1, 2]
    ∧ LocalGzip.getPassword
        (LocalGzip.updatePassword
          (LocalGzip.updatePassword byteEmptyFS "data" "pid" [1, 2])
          "data" "pid" [3]) "data" "pid"
      = .ok [3]
    ∧ LocalGzip.getCertificate
        (LocalGzip.updateCertificate byteEmptyFS "data" "cid" [5])
        "data" "cid"
      = .ok [5]
    ∧ LocalGzip.getCertificate byteEmptyFS "data" "does-not-exist"
      = .error .notFound
    ∧ LocalGzip.getPassword byteEmptyFS "data" "does-not-exist"
      = .error (.openNotExist "data/pkcs12-does-not-exist.gz")
    ∧ LocalErr.openNotExist "data/pkcs12-does-not-exist.gz"
      ≠ LocalErr.notFound := by
  decide

/-- Claim C9 evaluated: the zip revision maps both a missing file and an
empty archive to store.ErrNotFound; the gzip revision returns the raw open
error for a missing password file, a gzip decode error for an existing
zero-byte password file, and an empty payload with no error for a zero-byte
certificate file. -/
theorem localLoad_missing_and_empty_evaluation :
    LocalZip.load zipEmptyFS "data/pkcs12-x.zip" = .error .notFound
    ∧ LocalZip.load (zipWrite zipEmptyFS "data/pkcs12-x.zip" [])
        "data/pkcs12-x.zip"
      = .error .notFound
    ∧ LocalGzip.readFile byteEmptyFS "data/pkcs12-x.gz"
      = .error (.openNotExist "data/pkcs12-x.gz")
    ∧ LocalGzip.readFile (byteWrite byteEmptyFS "data/pkcs12-x.gz" [])
        "data/pkcs12-x.gz"
      = .error .gzipHeader
    ∧ LocalGzip.getCertificate
        (byteWrite byteEmptyFS "data/certificate-x.gz" []) "data" "x"
      = .ok []
    ∧ LocalErr.openNotExist "data/pkcs12-x.gz" ≠ LocalErr.notFound
    ∧ LocalErr.gzipHeader ≠ LocalErr.notFound := by
  decide

/-! ## Client store operations (pkg/api/v1/client.go) -/

/-- The StorePasswordRequest body of the API. -/
structure StorePasswordRequest where
  id : String
  password : String
deriving DecidableEq

/-- Outcome of one client operation: the returned error and the paths of
the HTTP requests that were built and issued. -/
structure ClientOpOutcome where
  err : Option ClientErr
  requests : List String
deriving DecidableEq

/-- StoreCertificate of the client: an empty ID returns ErrIDRequired
before any request is built; otherwise POST /v1/certs/<id> goes through the
retrying Do, whose outcome is the oracle doCall. -/
def clientStoreCertificate (r : StoreCertificateRequest)
    (doCall : String → Option ClientErr) : ClientOpOutcome :=
  if r.id = "" then ⟨some .idRequired, []⟩
  else ⟨doCall ("/v1/certs/" ++ r.id), ["/v1/certs/" ++ r.id]⟩

/-- StoreCertificatePassword of the client: an empty ID returns
ErrIDRequired before any request is built; otherwise POST
/v1/certs/<id>/pkcs12password through the retrying Do. -/
def clientStorePassword (r : StorePasswordRequest)
    (doCall : String → Option ClientErr) : ClientOpOutcome :=
  if r.id = "" then ⟨some .idRequired, []⟩
  else
    ⟨doCall ("/v1/certs/" ++ r.id ++ "/pkcs12password"),
      ["/v1/certs/" ++ r.id ++ "/pkcs12password"]⟩

/-- Claim C10: both store operations return the dedicated missing-ID error
and issue no HTTP request when the request ID is empty; with a non-empty ID
exactly one request path embedding the ID is issued. -/
theorem clientStore_requires_id (rc : StoreCertificateRequest)
    (rp : StorePasswordRequest) (doCall : String → Option ClientErr) :
    (rc.id = "" →
      clientStoreCertificate rc doCall = ⟨some .idRequired, []⟩)
    ∧ (rc.id ≠ "" →
      clientStoreCertificate rc doCall
        = ⟨doCall ("/v1/certs/" ++ rc.id), ["/v1/certs/" ++ rc.id]⟩)
    ∧ (rp.id = "" →
      clientStorePassword rp doCall = ⟨some .idRequired, []⟩)
    ∧ (rp.id ≠ "" →
      clientStorePassword rp doCall
        = ⟨doCall ("/v1/certs/" ++ rp.id ++ "/pkcs12password"),
            ["/v1/certs/" ++ rp.id ++ "/pkcs12password"]⟩) := by
  refine ⟨?_, ?_, ?_, ?_⟩
  · intro h; simp [clientStoreCertificate, h]
  · intro h; simp [clientStoreCertificate, h]
  · intro h; simp [clientStorePassword, h]
  · intro h; simp [clientStorePassword, h]

/-- Witness for claim C10: the concrete requests of the repository client
tests, with and without an ID. -/
theorem clientStore_requires_id_witness :
    clientStoreCertificate ⟨"", false, "AQI="⟩ (fun _ => none)
      = ⟨some .idRequired, []⟩
    ∧ clientStoreCertificate ⟨"1234", false, "AQI="⟩ (fun _ => none)
      = ⟨none, ["/v1/certs/1234"]⟩
    ∧ clientStorePassword ⟨"", "hunter2"⟩ (fun _ => none)
      = ⟨some .idRequired, []⟩
    ∧ clientStorePassword ⟨"1234", "hunter2"⟩ (fun _ => none)
      = ⟨none, ["/v1/certs/1234/pkcs12password"]⟩ := by
  refine ⟨?_, ?_, ?_, ?_⟩
  · exact (clientStore_requires_id ⟨"", false, "AQI="⟩ ⟨"", "hunter2"⟩
      (fun _ => none)).1 rfl
  · rw [(clientStore_requires_id ⟨"1234", false, "AQI="⟩ ⟨"1234", "hunter2"⟩
      (fun _ => none)).2.1 (by decide)]
    rfl
  · exact (clientStore_requires_id ⟨"", false, "AQI="⟩ ⟨"", "hunter2"⟩
      (fun _ => none)).2.2.1 rfl
  · rw [(clientStore_requires_id ⟨"1234", false, "AQI="⟩ ⟨"1234", "hunter2"⟩
      (fun _ => none)).2.2.2 (by decide)]
    rfl

end Courier
